import Mathlib

/-!
Verification of the oauth-callback library (kriasoft/oauth-callback).

This file shallowly embeds the two core components of the library:

* the runtime-independent callback server core (`BaseCallbackServer` in
  `src/server.ts`): the per-path waiter map, the `waitForCallback` race
  between callback delivery, timeout and server stop, and the cleanup of
  the waiter map;
* the `getAuthCode` capture function (`src/index.ts`): start server,
  await one callback, convert provider errors into `OAuthError`, stop
  the server on every exit path;
* the MCP provider state machine (`BrowserOAuthProvider` in
  `src/auth/browser-auth.ts`): token storage with expiry-aware reads,
  the single-use pending auth-code cache, and credential invalidation
  with the in-exchange workaround;
* the expiry helper `calculateExpiry` from `src/utils/token.ts`.

JavaScript promises are modelled as settle-once cells; the single-threaded
event loop is modelled by processing an ordered list of events.  JS
truthiness checks on strings and numbers are modelled explicitly
(`jsTruthyStr`, `jsTruthyInt`), since the source uses `if (x)` on values
where `""` and `0` are falsy.
-/

namespace OAuthCallback

/-- Query parameters of a callback request, as parsed from
`url.searchParams` in `handleRequest`: an association list of
key/value pairs (`CallbackResult` in `src/server.ts` is an open
string-keyed record). -/
abbrev CallbackResult := List (String × String)

/-- Field access `result.key` on a `CallbackResult`: `none` models the
JS value `undefined` for an absent key. -/
def CallbackResult.findParam (r : CallbackResult) (k : String) : Option String :=
  r.lookup k

/-- JS truthiness of an optional string: `undefined` and `""` are falsy. -/
def jsTruthyStr : Option String → Bool
  | none => false
  | some s => s ≠ ""

/-- JS truthiness of an optional number: `undefined` and `0` are falsy. -/
def jsTruthyInt : Option Int → Bool
  | none => false
  | some n => n ≠ 0

/-- JavaScript error values thrown/rejected by the library, distinguished
by their class and payload.

* `generic msg` is `new Error(msg)`;
* `oauth e d u` is `new OAuthError(e, d, u)` (class `OAuthError` with
  fields `error`, `error_description`, `error_uri`);
* `timeoutError msg` is `new TimeoutError(msg)`.  The `errors.ts` module
  itself is not among the provided sources; the class shape (a distinct
  `Error` subclass named `TimeoutError`, default message
  "OAuth callback timed out") is reconstructed from `src/error.test.ts`
  and the API documentation. -/
inductive JsError where
  | generic (message : String)
  | oauth (error : String) (error_description error_uri : Option String)
  | timeoutError (message : String)
  deriving Repr, DecidableEq

/-- A JS promise cell: settles at most once. -/
inductive PromiseState (α ε : Type) where
  | pending
  | resolved (v : α)
  | rejected (e : ε)
  deriving Repr, DecidableEq

/-- `resolve(v)`: a no-op once the promise has settled. -/
def PromiseState.resolve {α ε : Type} : PromiseState α ε → α → PromiseState α ε
  | .pending, v => .resolved v
  | s, _ => s

/-- `reject(e)`: a no-op once the promise has settled. -/
def PromiseState.reject {α ε : Type} : PromiseState α ε → ε → PromiseState α ε
  | .pending, e => .rejected e
  | s, _ => s

/-- Events the event loop can deliver while one `waitForCallback` attempt
is pending:

* `request p params` — an incoming HTTP request handled by
  `BaseCallbackServer.handleRequest` (path `p`, parsed query `params`);
* `timerFire` — the `setTimeout` timer of this attempt fires;
* `stop` — `BaseCallbackServer.stop()` is invoked (directly or via the
  abort signal handler, which just calls `stop()`). -/
inductive ServerEvent where
  | request (path : String) (params : CallbackResult)
  | timerFire
  | stop
  deriving Repr, DecidableEq

/-- State of one `waitForCallback` attempt: the paths currently present
in `callbackListeners`, and the settle-once cell observed by the caller
(the result of `Promise.race` of the waiter promise and the timeout
promise). -/
structure AttemptState where
  listeners : List String
  promise : PromiseState CallbackResult JsError
  deriving Repr, DecidableEq

/-- Message of the error rejected when a listener for the path is
already registered (`src/server.ts`). -/
def listenerActiveMessage (path : String) : String :=
  "A listener for the path \"" ++ path ++ "\" is already active."

/-- Message of the error rejected by the timeout promise
(`src/server.ts`). -/
def timeoutMessage (timeout : Nat) (path : String) : String :=
  "OAuth callback timeout after " ++ toString timeout ++ "ms waiting for " ++ path

/-- Message of the error used by `stop()` to reject still-pending
waiters (`src/server.ts`). -/
def serverStoppedMessage : String :=
  "Server stopped before callback received"

/-- One event-loop step of an attempt for `path` with timeout `timeout`.

* `request p params`: `handleRequest` looks `p` up in
  `callbackListeners`; if absent it responds 404, if present it calls
  `listener.resolve(params)`.  Only a request for this attempt's own
  `path` can settle this attempt's cell; a request for a different
  registered path resolves that other waiter and leaves this one alone.
* `timerFire`: the timeout promise rejects, so the race cell rejects
  with the timeout error (a no-op if already settled).
* `stop`: every listener still in the map is rejected with the
  stopped error and the map is cleared. -/
def handleEvent (path : String) (timeout : Nat) (s : AttemptState) :
    ServerEvent → AttemptState
  | .request p params =>
      if p = path ∧ p ∈ s.listeners then
        { s with promise := s.promise.resolve params }
      else s
  | .timerFire =>
      { s with promise := s.promise.reject (.generic (timeoutMessage timeout path)) }
  | .stop =>
      { listeners := [],
        promise :=
          if path ∈ s.listeners then
            s.promise.reject (.generic serverStoppedMessage)
          else s.promise }

/-- `BaseCallbackServer.waitForCallback(path, timeout)`, given the set
of already-registered listener paths and the ordered list of events
delivered while the attempt runs.  Returns the settle-once cell the
caller awaits, together with the listener map after the attempt: if
the path was already watched the call rejects immediately and touches
nothing; otherwise the waiter is registered, the events run, and the
`finally` block deletes the path from the map. -/
def waitForCallback (listeners : List String) (path : String) (timeout : Nat)
    (events : List ServerEvent) :
    PromiseState CallbackResult JsError × List String :=
  if path ∈ listeners then
    (.rejected (.generic (listenerActiveMessage path)), listeners)
  else
    let final := events.foldl (handleEvent path timeout) ⟨path :: listeners, .pending⟩
    (final.promise, final.listeners.erase path)

/-- Server lifecycle operations performed by `getAuthCode`
(`src/index.ts`): `server.start(...)` and `server.stop()`. -/
inductive ServerAction where
  | start
  | stopServer
  deriving Repr, DecidableEq

/-- The `OAuthError` built by `getAuthCode` from a resolved callback
result: `new OAuthError(result.error, result.error_description,
result.error_uri)`. -/
def oauthErrorOf (r : CallbackResult) : JsError :=
  .oauth ((r.findParam "error").getD "") (r.findParam "error_description")
    (r.findParam "error_uri")

/-- `getAuthCode` (`src/index.ts`) after option defaulting, as a
function of: the outcome of `server.start` (which can throw, e.g. port
in use or an already-aborted signal), the callback path, the timeout,
and the events delivered while the callback is awaited.  Returns the
trace of server lifecycle actions and, when control returns to the
caller, the returned value or thrown error:

* if `start` throws, the `finally` block still runs `server.stop()`
  and the error propagates;
* otherwise the function awaits
  `server.waitForCallback(callbackPath, timeout)` (a fresh server, so
  the listener map starts empty); while that promise is pending control
  has not returned and the server is not yet stopped (`none`);
* on resolution, `if (result.error)` (JS truthiness: an empty string is
  falsy) throws `new OAuthError(...)`, else the result is returned;
  on rejection the error propagates; in every such case the `finally`
  block runs `server.stop()` first. -/
def getAuthCode (startResult : Except JsError Unit) (callbackPath : String)
    (timeout : Nat) (events : List ServerEvent) :
    List ServerAction × Option (Except JsError CallbackResult) :=
  match startResult with
  | .error e => ([.start, .stopServer], some (.error e))
  | .ok _ =>
    match (waitForCallback [] callbackPath timeout events).fst with
    | .pending => ([.start], none)
    | .resolved r =>
        if jsTruthyStr (r.findParam "error") then
          ([.start, .stopServer], some (.error (oauthErrorOf r)))
        else
          ([.start, .stopServer], some (.ok r))
    | .rejected e => ([.start, .stopServer], some (.error e))

/-- `Tokens` (`src/mcp-types.ts`): the persisted token record handed to
the store by `saveTokens`. -/
structure StoredTokens where
  accessToken : String
  refreshToken : Option String
  expiresAt : Option Int
  scope : Option String
  deriving Repr, DecidableEq

/-- `OAuthTokens` (MCP SDK shape) as held in the provider's `_tokens`
field. -/
structure OAuthTokens where
  access_token : String
  token_type : String
  refresh_token : Option String
  expires_in : Option Int
  scope : Option String
  deriving Repr, DecidableEq

/-- `ClientInfo` (`src/mcp-types.ts`): the persisted client record. -/
structure ClientInfo where
  clientId : String
  clientSecret : Option String
  clientIdIssuedAt : Option Int
  clientSecretExpiresAt : Option Int
  deriving Repr, DecidableEq

/-- `OAuthClientInformationFull` (MCP SDK shape) as held in the
provider's `_clientInfo` field. -/
structure ClientInfoFull where
  client_id : String
  client_secret : Option String
  client_id_issued_at : Option Int
  client_secret_expires_at : Option Int
  redirect_uris : List String
  deriving Repr, DecidableEq

/-- `OAuthClientInformation` (MCP SDK shape): what `clientInformation()`
returns. -/
structure ClientInformation where
  client_id : String
  client_secret : Option String
  deriving Repr, DecidableEq

/-- `OAuthSession` (`src/mcp-types.ts`): persisted session-recovery
state. -/
structure OAuthSession where
  codeVerifier : Option String
  state : Option String
  deriving Repr, DecidableEq

/-- The contents of the injected store under the provider's single
`storeKey`: the token record (`get/set/delete`), and — for extended
`OAuthStore`s — the client record (`getClient/setClient`) and session
record (`getSession/setSession`). -/
structure StoreState where
  tokens : Option StoredTokens
  client : Option ClientInfo
  session : Option OAuthSession
  deriving Repr, DecidableEq

/-- Immutable configuration of a `BrowserOAuthProvider`: the statically
configured client id/secret (if any), the callback address, and whether
the injected store implements the extended `OAuthStore` interface
(`typeof store.getClient === "function"`). -/
structure ProviderConfig where
  clientId : Option String
  clientSecret : Option String
  port : Int
  hostname : String
  callbackPath : String
  isOAuthStore : Bool
  deriving Repr, DecidableEq

/-- Mutable state of a `BrowserOAuthProvider`, together with the store
contents it owns. -/
structure ProviderState where
  clientInfo : Option ClientInfoFull
  tokens : Option OAuthTokens
  codeVerifier : Option String
  pendingAuthCode : Option String
  pendingAuthState : Option String
  isExchangingCode : Bool
  tokensLoaded : Bool
  store : StoreState
  deriving Repr, DecidableEq

/-- `calculateExpiry` (`src/utils/token.ts`): converts OAuth
`expires_in` seconds to an absolute timestamp in ms; `if (!expiresIn)`
returns `undefined`, so both `undefined` and `0` yield `undefined`. -/
def calculateExpiry (now : Int) (expiresIn : Option Int) : Option Int :=
  match expiresIn with
  | none => none
  | some e => if e = 0 then none else some (now + e * 1000)

namespace BrowserOAuthProvider

/-- `get redirectUrl()`. -/
def redirectUrl (cfg : ProviderConfig) : String :=
  "http://" ++ cfg.hostname ++ ":" ++ toString cfg.port ++ cfg.callbackPath

/-- `_loadStoredData()`: populate `_tokens` from the stored token
record — `expires_in` comes from the ternary `stored.expiresAt ?
Math.floor((stored.expiresAt - Date.now()) / 1000) : undefined`, a JS
truthiness test under which a stored `expiresAt` of `0` is falsy and
yields `undefined` (floor is modelled by `Int.fdiv`) — and, when the
store is an `OAuthStore`, populate `_clientInfo` and `_codeVerifier`
from the stored client and session records; finally set
`_tokensLoaded`.  (The `catch` branch, which also sets
`_tokensLoaded`, models store read failures and is not represented:
the store here is pure data.) -/
def loadStoredData (cfg : ProviderConfig) (now : Int) (s : ProviderState) :
    ProviderState :=
  let s1 :=
    match s.store.tokens with
    | some st =>
        { s with tokens := some {
            access_token := st.accessToken,
            token_type := "Bearer",
            refresh_token := st.refreshToken,
            expires_in :=
              if jsTruthyInt st.expiresAt then
                some ((st.expiresAt.getD 0 - now).fdiv 1000)
              else none,
            scope := st.scope } }
    | none => s
  let s2 :=
    if cfg.isOAuthStore then
      let s2a :=
        match s1.store.client with
        | some ci =>
            { s1 with clientInfo := some {
                client_id := ci.clientId,
                client_secret := ci.clientSecret,
                client_id_issued_at := ci.clientIdIssuedAt,
                client_secret_expires_at := ci.clientSecretExpiresAt,
                redirect_uris := [redirectUrl cfg] } }
        | none => s1
      match s2a.store.session with
      | some sess => { s2a with codeVerifier := sess.codeVerifier }
      | none => s2a
    else s1
  { s2 with tokensLoaded := true }

/-- `_ensureTokensLoaded()`: lazily run `_loadStoredData` once. -/
def ensureTokensLoaded (cfg : ProviderConfig) (now : Int) (s : ProviderState) :
    ProviderState :=
  if s.tokensLoaded then s else loadStoredData cfg now s

/-- `clientInformation()`: static credentials take precedence
(`if (this._clientId)`, JS truthiness), then dynamically registered
info, else `undefined`. -/
def clientInformation (cfg : ProviderConfig) (s : ProviderState) :
    Option ClientInformation :=
  if jsTruthyStr cfg.clientId then
    some { client_id := cfg.clientId.getD "", client_secret := cfg.clientSecret }
  else
    match s.clientInfo with
    | some ci => some { client_id := ci.client_id, client_secret := ci.client_secret }
    | none => none

/-- `codeVerifier()`: `if (!this._codeVerifier)` (JS truthiness) throws
"Code verifier not found", else returns the verifier. -/
def codeVerifier (s : ProviderState) : Except String String :=
  if jsTruthyStr s.codeVerifier then .ok (s.codeVerifier.getD "")
  else .error "Code verifier not found"

/-- `_doRefreshTokens()`: fails on a missing refresh token or missing
client information, and otherwise fails with "not yet implemented"
(the token endpoint URL is not available); it never mutates state. -/
def doRefreshTokens (cfg : ProviderConfig) (s : ProviderState) :
    Except String Unit :=
  if jsTruthyStr (s.tokens.bind (fun t => t.refresh_token)) then
    match clientInformation cfg s with
    | some ci =>
        if ci.client_id = "" then
          .error "No client information available for refresh"
        else
          .error "Token refresh not yet implemented - requires token endpoint URL"
    | none => .error "No client information available for refresh"
  else .error "No refresh token available"

/-- `tokens()`: ensure the lazy load ran; return `undefined` when no
tokens are held; re-read the stored record and, when
`if (stored?.expiresAt)` holds — a JS truthiness test, so a missing
record, a missing `expiresAt`, *and* an `expiresAt` of `0` (falsy,
treated as non-expiring) all skip the branch — check the 60000 ms
safety buffer (`Date.now() >= stored.expiresAt - 60000`): inside it,
either attempt a refresh (returning `undefined` when it fails — and
`_doRefreshTokens` always fails) when a refresh token is present, or
return `undefined`; in every other case return the held tokens
unchanged. -/
def tokens (cfg : ProviderConfig) (now : Int) (s : ProviderState) :
    Option OAuthTokens × ProviderState :=
  let s := ensureTokensLoaded cfg now s
  match s.tokens with
  | none => (none, s)
  | some t =>
    match s.store.tokens with
    | some st =>
        if jsTruthyInt st.expiresAt then
          if now ≥ st.expiresAt.getD 0 - 60000 then
            if jsTruthyStr t.refresh_token then
              match doRefreshTokens cfg s with
              | .ok _ => (s.tokens, s)
              | .error _ => (none, s)
            else (none, s)
          else (some t, s)
        else (some t, s)
    | none => (some t, s)

/-- `saveTokens(tokens)`: overwrite `_tokens`, mark loaded, and persist
the stored record with
`expiresAt: tokens.expires_in ? calculateExpiry(tokens.expires_in) :
undefined` (JS truthiness on `expires_in`). -/
def saveTokens (now : Int) (t : OAuthTokens) (s : ProviderState) : ProviderState :=
  { s with
    tokens := some t,
    tokensLoaded := true,
    store := { s.store with tokens := some {
      accessToken := t.access_token,
      refreshToken := t.refresh_token,
      expiresAt :=
        if jsTruthyInt t.expires_in then calculateExpiry now t.expires_in
        else none,
      scope := t.scope } } }

/-- The `{ code?, state? }` object returned by `getPendingAuthCode()`. -/
structure PendingAuthCode where
  code : Option String
  state : Option String
  deriving Repr, DecidableEq

/-- `getPendingAuthCode()`: when a pending code is present
(`if (this._pendingAuthCode)`, JS truthiness), return the `{code,
state}` pair, set `_isExchangingCode`, and clear both pending fields;
otherwise return `undefined`. -/
def getPendingAuthCode (s : ProviderState) :
    Option PendingAuthCode × ProviderState :=
  if jsTruthyStr s.pendingAuthCode then
    (some { code := s.pendingAuthCode, state := s.pendingAuthState },
     { s with
       isExchangingCode := true,
       pendingAuthCode := none,
       pendingAuthState := none })
  else (none, s)

/-- Argument of `invalidateCredentials`. -/
inductive InvalidateScope where
  | all
  | client
  | tokens
  | verifier
  deriving Repr, DecidableEq

/-- `invalidateCredentials(scope)`:

* SDK workaround: `"all"` while `_isExchangingCode` clears only the
  token state (`_tokens = undefined; store.delete(key)`) and returns;
* otherwise, `"client"` or `"all"` while exchanging resets the flag;
* then per scope: `"all"` clears client info, tokens, verifier, resets
  `_tokensLoaded` and calls `store.clear()`; `"client"` clears client
  info (persisting an empty client record on `OAuthStore`s);
  `"tokens"` clears tokens and deletes the stored record; `"verifier"`
  clears the verifier (persisting an empty session on `OAuthStore`s). -/
def invalidateCredentials (cfg : ProviderConfig) (scope : InvalidateScope)
    (s : ProviderState) : ProviderState :=
  if scope = .all ∧ s.isExchangingCode then
    { s with tokens := none, store := { s.store with tokens := none } }
  else
    let s :=
      if s.isExchangingCode ∧ (scope = .client ∨ scope = .all) then
        { s with isExchangingCode := false }
      else s
    match scope with
    | .all =>
        { s with
          clientInfo := none,
          tokens := none,
          codeVerifier := none,
          tokensLoaded := false,
          store := { tokens := none, client := none, session := none } }
    | .client =>
        { s with
          clientInfo := none,
          store :=
            if cfg.isOAuthStore then
              { s.store with client := some {
                  clientId := "",
                  clientSecret := none,
                  clientIdIssuedAt := none,
                  clientSecretExpiresAt := none } }
            else s.store }
    | .tokens =>
        { s with tokens := none, store := { s.store with tokens := none } }
    | .verifier =>
        { s with
          codeVerifier := none,
          store :=
            if cfg.isOAuthStore then
              { s.store with session := some { codeVerifier := none, state := none } }
            else s.store }

end BrowserOAuthProvider

/-! ## Helper lemmas about the promise cell and the attempt fold -/

theorem PromiseState.resolve_of_ne_pending {α ε : Type} (s : PromiseState α ε)
    (h : s ≠ .pending) (v : α) : s.resolve v = s := by
  cases s with
  | pending => exact absurd rfl h
  | resolved w => rfl
  | rejected e => rfl

theorem PromiseState.reject_of_ne_pending {α ε : Type} (s : PromiseState α ε)
    (h : s ≠ .pending) (e : ε) : s.reject e = s := by
  cases s with
  | pending => exact absurd rfl h
  | resolved w => rfl
  | rejected f => rfl

theorem handleEvent_promise_of_settled (path : String) (timeout : Nat)
    (s : AttemptState) (e : ServerEvent) (h : s.promise ≠ .pending) :
    (handleEvent path timeout s e).promise = s.promise := by
  cases e with
  | request p params =>
      simp only [handleEvent]
      split
      · exact PromiseState.resolve_of_ne_pending _ h _
      · rfl
  | timerFire => exact PromiseState.reject_of_ne_pending _ h _
  | stop =>
      simp only [handleEvent]
      split
      · exact PromiseState.reject_of_ne_pending _ h _
      · rfl

theorem foldl_promise_of_settled (path : String) (timeout : Nat)
    (events : List ServerEvent) (s : AttemptState) (h : s.promise ≠ .pending) :
    (events.foldl (handleEvent path timeout) s).promise = s.promise := by
  induction events generalizing s with
  | nil => rfl
  | cons e es ih =>
      rw [List.foldl_cons]
      have h1 := handleEvent_promise_of_settled path timeout s e h
      have h2 : (handleEvent path timeout s e).promise ≠ .pending := h1 ▸ h
      rw [ih _ h2, h1]

theorem waitForCallback_fst (listeners : List String) (path : String)
    (timeout : Nat) (events : List ServerEvent) (h : path ∉ listeners) :
    (waitForCallback listeners path timeout events).fst
      = (events.foldl (handleEvent path timeout) ⟨path :: listeners, .pending⟩).promise := by
  simp [waitForCallback, h]

theorem waitForCallback_snd (listeners : List String) (path : String)
    (timeout : Nat) (events : List ServerEvent) (h : path ∉ listeners) :
    (waitForCallback listeners path timeout events).snd
      = ((events.foldl (handleEvent path timeout)
          ⟨path :: listeners, .pending⟩).listeners).erase path := by
  simp [waitForCallback, h]

theorem handleEvent_listeners (path : String) (timeout : Nat) (s : AttemptState)
    (e : ServerEvent) :
    (handleEvent path timeout s e).listeners = s.listeners
    ∨ (handleEvent path timeout s e).listeners = [] := by
  cases e with
  | request p params =>
      simp only [handleEvent]
      split
      · left; rfl
      · left; rfl
  | timerFire => left; rfl
  | stop => right; rfl

theorem foldl_listeners (path : String) (timeout : Nat)
    (events : List ServerEvent) (s : AttemptState) :
    (events.foldl (handleEvent path timeout) s).listeners = s.listeners
    ∨ (events.foldl (handleEvent path timeout) s).listeners = [] := by
  induction events generalizing s with
  | nil => left; rfl
  | cons e es ih =>
      rw [List.foldl_cons]
      rcases ih (handleEvent path timeout s e) with h | h
      · rw [h]; exact handleEvent_listeners path timeout s e
      · right; exact h

/-! ## Claims about the callback server -/

/-- **C1.** The `waitForCallback` race settles exactly once: (i) once the
attempt's cell has settled, no later event (in particular no late request)
changes it — the losing outcomes are no-ops; (ii) if the timeout timer
fires while the attempt is still pending, the caller observes the timeout
rejection no matter what requests arrive afterwards. -/
theorem waitForCallback_timeout_race (listeners : List String) (path : String)
    (timeout : Nat) (es1 es2 : List ServerEvent)
    (hreg : path ∉ listeners)
    (hpending : (es1.foldl (handleEvent path timeout)
        ⟨path :: listeners, .pending⟩).promise = .pending) :
    (∀ (st : AttemptState) (events : List ServerEvent), st.promise ≠ .pending →
        (events.foldl (handleEvent path timeout) st).promise = st.promise)
    ∧ (waitForCallback listeners path timeout
          (es1 ++ ServerEvent.timerFire :: es2)).fst
        = .rejected (.generic (timeoutMessage timeout path)) := by
  refine ⟨fun st events h => foldl_promise_of_settled path timeout events st h, ?_⟩
  rw [waitForCallback_fst listeners path timeout _ hreg, List.foldl_append,
    List.foldl_cons]
  have hstep : (handleEvent path timeout
      (es1.foldl (handleEvent path timeout) ⟨path :: listeners, .pending⟩)
      .timerFire).promise
      = .rejected (.generic (timeoutMessage timeout path)) := by
    show (PromiseState.reject _ _) = _
    rw [hpending]
    rfl
  rw [foldl_promise_of_settled path timeout es2 _ (by rw [hstep]; intro hcon; cases hcon),
    hstep]

/-- Witness for C1 at a concrete input: the timer fires first, a matching
request arrives afterwards, and the observed result is the timeout
rejection. -/
theorem waitForCallback_timeout_race_witness :
    (waitForCallback [] "/callback" 50
        ([] ++ ServerEvent.timerFire
          :: [ServerEvent.request "/callback" [("code", "abc123")]])).fst
      = .rejected (.generic (timeoutMessage 50 "/callback")) :=
  (waitForCallback_timeout_race [] "/callback" 50 []
    [ServerEvent.request "/callback" [("code", "abc123")]]
    (by simp) rfl).2

/-- **C2.** After a completed `waitForCallback` attempt — whatever events
occurred (delivery, timeout, stop) — the `finally` cleanup leaves no
waiter entry for the attempt's path in the listener map. -/
theorem waitForCallback_cleanup (listeners : List String) (path : String)
    (timeout : Nat) (events : List ServerEvent) (hreg : path ∉ listeners) :
    path ∉ (waitForCallback listeners path timeout events).snd := by
  rw [waitForCallback_snd listeners path timeout events hreg]
  rcases foldl_listeners path timeout events ⟨path :: listeners, .pending⟩ with h | h
  · rw [h]
    show path ∉ (path :: listeners).erase path
    rw [List.erase_cons_head]
    exact hreg
  · rw [h]
    simp

/-- Witness for C2 at a concrete input: after a successful delivery the
listener map holds no entry for the callback path. -/
theorem waitForCallback_cleanup_witness :
    "/callback" ∉ (waitForCallback [] "/callback" 30000
        [ServerEvent.request "/callback" [("code", "abc123"), ("state", "s1")]]).snd :=
  waitForCallback_cleanup [] "/callback" 30000
    [ServerEvent.request "/callback" [("code", "abc123"), ("state", "s1")]]
    (by simp)

/-- **C3.** If a waiter for the path is already registered, a second
`waitForCallback` call rejects immediately with the "listener already
active" error and leaves the listener map — and hence the first waiter —
untouched. -/
theorem waitForCallback_already_active (listeners : List String) (path : String)
    (timeout : Nat) (events : List ServerEvent) (h : path ∈ listeners) :
    waitForCallback listeners path timeout events
      = (.rejected (.generic (listenerActiveMessage path)), listeners) := by
  simp [waitForCallback, h]

/-- Witness for C3 at a concrete input. -/
theorem waitForCallback_already_active_witness :
    waitForCallback ["/callback"] "/callback" 30000 []
      = (.rejected (.generic (listenerActiveMessage "/callback")), ["/callback"]) :=
  waitForCallback_already_active ["/callback"] "/callback" 30000 [] (by simp)

/-- **C9.** At the failing input (no request within a 50 ms window) the
rejection produced by the code is a plain `Error` with the timeout
message — not an instance of the `TimeoutError` class the library
exports, documents and tests (and not an `OAuthError` either).  The
claim that the caller receives a `TimeoutError` therefore fails on the
code: nothing in the sources ever constructs `TimeoutError`. -/
theorem timeout_rejection_is_generic_error :
    (getAuthCode (.ok ()) "/callback" 50 [ServerEvent.timerFire]).snd
      = some (.error (.generic "OAuth callback timeout after 50ms waiting for /callback"))
    ∧ (∀ (msg : String),
        (getAuthCode (.ok ()) "/callback" 50 [ServerEvent.timerFire]).snd
          ≠ some (.error (.timeoutError msg)))
    ∧ (∀ (e : String) (d u : Option String),
        (getAuthCode (.ok ()) "/callback" 50 [ServerEvent.timerFire]).snd
          ≠ some (.error (.oauth e d u))) := by
  have h : (getAuthCode (.ok ()) "/callback" 50 [ServerEvent.timerFire]).snd
      = some (.error (.generic "OAuth callback timeout after 50ms waiting for /callback")) := by
    rfl
  refine ⟨h, fun msg hcon => ?_, fun e d u hcon => ?_⟩
  · rw [h] at hcon
    simp at hcon
  · rw [h] at hcon
    simp at hcon

/-! ## Claims about `getAuthCode` -/

/-- **C4, counterexample.** The claim quantifies over every callback
result whose parameters *contain an `error` key*; but `getAuthCode`
tests `if (result.error)` with JS truthiness, so a redirect carrying
`error=` (the key present with an empty value) is returned as a normal
success value instead of being thrown. -/
theorem getAuthCode_empty_error_counterexample :
    (CallbackResult.findParam [("error", "")] "error" = some "")
    ∧ getAuthCode (.ok ()) "/callback" 30000
        [ServerEvent.request "/callback" [("error", "")]]
      = ([.start, .stopServer], some (.ok [("error", "")])) := by
  constructor
  · rfl
  · rfl

/-- **C4, amended.** For every callback result whose `error` parameter is
present *with a non-empty value*, `getAuthCode` throws an `OAuthError`
carrying that error code plus the accompanying `error_description` and
`error_uri`; and no result whose `error` parameter is truthy is ever
returned as a normal value.  In particular `error=access_denied` makes
`getAuthCode` throw an `OAuthError` whose `error` field is
`"access_denied"` (see the witness). -/
theorem getAuthCode_error_thrown (callbackPath : String) (timeout : Nat)
    (events : List ServerEvent) (r : CallbackResult) (e : String)
    (hres : (waitForCallback [] callbackPath timeout events).fst = .resolved r)
    (herr : r.findParam "error" = some e) (hne : e ≠ "") :
    (getAuthCode (.ok ()) callbackPath timeout events).snd
      = some (.error (.oauth e (r.findParam "error_description")
          (r.findParam "error_uri")))
    ∧ ∀ (startResult : Except JsError Unit) (p : String) (tmo : Nat)
        (evs : List ServerEvent) (r' : CallbackResult),
        (getAuthCode startResult p tmo evs).snd = some (.ok r')
        → jsTruthyStr (r'.findParam "error") = false := by
  constructor
  · have ht : jsTruthyStr (some e) = true := by
      simp [jsTruthyStr, hne]
    simp [getAuthCode, hres, ht, oauthErrorOf, herr]
  · intro startResult p tmo evs r' h
    cases startResult with
    | error e' => simp [getAuthCode] at h
    | ok u =>
        rcases hfst : (waitForCallback [] p tmo evs).fst with _ | r2 | e2
        · simp [getAuthCode, hfst] at h
        · by_cases ht : jsTruthyStr (r2.findParam "error")
          · simp [getAuthCode, hfst, ht] at h
          · simp [getAuthCode, hfst, ht] at h
            rw [← h]
            simpa using ht
        · simp [getAuthCode, hfst] at h

/-- Witness for C4 (amended) at the concrete `access_denied` scenario. -/
theorem getAuthCode_error_thrown_witness :
    (getAuthCode (.ok ()) "/callback" 30000
        [ServerEvent.request "/callback"
          [("error", "access_denied"), ("error_description", "User declined")]]).snd
      = some (.error (.oauth "access_denied" (some "User declined") none)) := by
  have h := (getAuthCode_error_thrown "/callback" 30000
    [ServerEvent.request "/callback"
      [("error", "access_denied"), ("error_description", "User declined")]]
    [("error", "access_denied"), ("error_description", "User declined")]
    "access_denied" rfl rfl (by decide)).1
  simpa using h

/-- **C5.** Whenever `getAuthCode` returns control to its caller — with a
captured result, a thrown `OAuthError`, a timeout or stop rejection, or a
`server.start` failure — `server.stop()` has been invoked (it appears in
the action trace); the only runs without a stop are those where the
callback promise is still pending and control has not returned. -/
theorem getAuthCode_stops_server (startResult : Except JsError Unit)
    (callbackPath : String) (timeout : Nat) (events : List ServerEvent)
    (out : Except JsError CallbackResult)
    (hdone : (getAuthCode startResult callbackPath timeout events).snd = some out) :
    ServerAction.stopServer ∈ (getAuthCode startResult callbackPath timeout events).fst := by
  cases startResult with
  | error e => simp [getAuthCode]
  | ok u =>
      rcases hfst : (waitForCallback [] callbackPath timeout events).fst with _ | r | e
      · simp [getAuthCode, hfst] at hdone
      · by_cases ht : jsTruthyStr (r.findParam "error") <;>
          simp [getAuthCode, hfst, ht]
      · simp [getAuthCode, hfst]

/-- Witness for C5 at a concrete input: a timed-out run returns control
with the timeout error, and the trace contains the stop action. -/
theorem getAuthCode_stops_server_witness :
    ServerAction.stopServer
      ∈ (getAuthCode (.ok ()) "/callback" 50 [ServerEvent.timerFire]).fst :=
  getAuthCode_stops_server (.ok ()) "/callback" 50 [ServerEvent.timerFire]
    (.error (.generic (timeoutMessage 50 "/callback"))) rfl

/-! ## Claims about the provider state machine -/

open BrowserOAuthProvider in
theorem loadStoredData_tokens_of_store_none (cfg : ProviderConfig) (now : Int)
    (s : ProviderState) (h : s.store.tokens = none) :
    (loadStoredData cfg now s).tokens = s.tokens := by
  unfold loadStoredData
  rw [h]
  by_cases ho : cfg.isOAuthStore <;>
    cases hc : s.store.client <;> cases hs : s.store.session <;>
      simp [ho, hc, hs]

open BrowserOAuthProvider in
theorem tokens_fst_of_cleared (cfg : ProviderConfig) (now : Int)
    (s : ProviderState) (ht : s.tokens = none) (hs : s.store.tokens = none) :
    (tokens cfg now s).fst = none := by
  unfold BrowserOAuthProvider.tokens ensureTokensLoaded
  by_cases hl : s.tokensLoaded
  · simp [hl, ht]
  · have h1 : (loadStoredData cfg now s).tokens = none := by
      rw [loadStoredData_tokens_of_store_none cfg now s hs, ht]
    simp [hl, h1]

/-- **C6.** With the lazy load done, the in-memory refresh token
matching the stored one, and a genuine stored expiry (non-zero: a
stored `expiresAt` of `0` is falsy in `if (stored?.expiresAt)` and is
the codebase's "non-expiring" convention, cf. `isTokenExpired` and
`calculateExpiry`): (i) when the stored `expiresAt` is less than
60000 ms in the future and no refresh token is stored, `tokens()`
resolves to no tokens; (ii) when the stored `expiresAt` is more than
60000 ms in the future, `tokens()` returns the held token unchanged. -/
theorem tokens_expiry_buffer (cfg : ProviderConfig) (now : Int)
    (s : ProviderState) (t : OAuthTokens) (st : StoredTokens) (exp : Int)
    (hloaded : s.tokensLoaded = true)
    (htok : s.tokens = some t)
    (hstore : s.store.tokens = some st)
    (hexp : st.expiresAt = some exp)
    (hexp0 : exp ≠ 0)
    (hrt : t.refresh_token = st.refreshToken) :
    (st.refreshToken = none → exp - now < 60000 →
        (BrowserOAuthProvider.tokens cfg now s).fst = none)
    ∧ (exp - now > 60000 →
        (BrowserOAuthProvider.tokens cfg now s).fst = some t) := by
  have htruthy : jsTruthyInt (some exp) = true := by
    simp [jsTruthyInt, hexp0]
  constructor
  · intro hnone hlt
    have hc : now ≥ exp - 60000 := by omega
    simp [BrowserOAuthProvider.tokens, BrowserOAuthProvider.ensureTokensLoaded,
      hloaded, htok, hstore, hexp, htruthy, hc, hrt, hnone, jsTruthyStr]
  · intro hgt
    have hc : ¬ (now ≥ exp - 60000) := by omega
    simp [BrowserOAuthProvider.tokens, BrowserOAuthProvider.ensureTokensLoaded,
      hloaded, htok, hstore, hexp, htruthy, hc]

/-- Concrete token state used by the provider witnesses. -/
def sampleStored : StoredTokens :=
  { accessToken := "test-access-token", refreshToken := none,
    expiresAt := some 1030000, scope := none }

/-- Concrete in-memory tokens used by the provider witnesses. -/
def sampleTokens : OAuthTokens :=
  { access_token := "test-access-token", token_type := "Bearer",
    refresh_token := none, expires_in := some 3600, scope := none }

/-- Concrete provider configuration used by the provider witnesses. -/
def sampleCfg : ProviderConfig :=
  { clientId := none, clientSecret := none, port := 3000,
    hostname := "localhost", callbackPath := "/callback", isOAuthStore := false }

/-- Concrete loaded provider state used by the provider witnesses. -/
def sampleState : ProviderState :=
  { clientInfo := none, tokens := some sampleTokens, codeVerifier := none,
    pendingAuthCode := none, pendingAuthState := none,
    isExchangingCode := false, tokensLoaded := true,
    store := { tokens := some sampleStored, client := none, session := none } }

/-- Witness for C6: with expiry 30 s away and no refresh token the read
yields nothing; with the same expiry 130 s away the stored token is
returned unchanged. -/
theorem tokens_expiry_buffer_witness :
    (BrowserOAuthProvider.tokens sampleCfg 1000000 sampleState).fst = none
    ∧ (BrowserOAuthProvider.tokens sampleCfg 900000 sampleState).fst
        = some sampleTokens := by
  have h1 := tokens_expiry_buffer sampleCfg 1000000 sampleState sampleTokens
    sampleStored 1030000 rfl rfl rfl rfl (by decide) rfl
  have h2 := tokens_expiry_buffer sampleCfg 900000 sampleState sampleTokens
    sampleStored 1030000 rfl rfl rfl rfl (by decide) rfl
  exact ⟨h1.1 rfl (by norm_num), h2.2 (by norm_num)⟩

/-- **C7.** `getPendingAuthCode` is single-use read-and-clear: with a
(non-empty) captured code pending, the first call returns the `{code,
state}` pair and sets the exchanging flag, and a second call before any
new capture returns nothing. -/
theorem getPendingAuthCode_single_use (s : ProviderState) (c : String)
    (hc : s.pendingAuthCode = some c) (hne : c ≠ "") :
    (BrowserOAuthProvider.getPendingAuthCode s).fst
      = some { code := some c, state := s.pendingAuthState }
    ∧ ((BrowserOAuthProvider.getPendingAuthCode s).snd).isExchangingCode = true
    ∧ (BrowserOAuthProvider.getPendingAuthCode
        ((BrowserOAuthProvider.getPendingAuthCode s).snd)).fst = none := by
  refine ⟨?_, ?_, ?_⟩ <;>
    simp [BrowserOAuthProvider.getPendingAuthCode, hc, jsTruthyStr, hne]

/-- Concrete provider state with a captured pending code, used by the C7
witness. -/
def samplePendingState : ProviderState :=
  { clientInfo := none, tokens := none, codeVerifier := none,
    pendingAuthCode := some "test-code", pendingAuthState := some "test-state",
    isExchangingCode := false, tokensLoaded := true,
    store := { tokens := none, client := none, session := none } }

/-- Witness for C7 at a concrete input. -/
theorem getPendingAuthCode_single_use_witness :
    (BrowserOAuthProvider.getPendingAuthCode samplePendingState).fst
      = some { code := some "test-code", state := some "test-state" }
    ∧ ((BrowserOAuthProvider.getPendingAuthCode samplePendingState).snd).isExchangingCode = true
    ∧ (BrowserOAuthProvider.getPendingAuthCode
        ((BrowserOAuthProvider.getPendingAuthCode samplePendingState).snd)).fst = none :=
  getPendingAuthCode_single_use samplePendingState "test-code" rfl (by decide)

/-- **C8.** `invalidateCredentials("all")` while the exchanging flag is
set clears only token state — in memory and in the store — and leaves
the cached client registration and the PKCE verifier untouched, so
`clientInformation()` and `codeVerifier()` return what they returned
before while `tokens()` yields nothing. -/
theorem invalidateCredentials_all_during_exchange (cfg : ProviderConfig)
    (now : Int) (s : ProviderState) (h : s.isExchangingCode = true) :
    BrowserOAuthProvider.clientInformation cfg
        (BrowserOAuthProvider.invalidateCredentials cfg .all s)
      = BrowserOAuthProvider.clientInformation cfg s
    ∧ BrowserOAuthProvider.codeVerifier
        (BrowserOAuthProvider.invalidateCredentials cfg .all s)
      = BrowserOAuthProvider.codeVerifier s
    ∧ (BrowserOAuthProvider.tokens cfg now
        (BrowserOAuthProvider.invalidateCredentials cfg .all s)).fst = none
    ∧ (BrowserOAuthProvider.invalidateCredentials cfg .all s).store.tokens = none := by
  have hinv : BrowserOAuthProvider.invalidateCredentials cfg .all s
      = { s with tokens := none, store := { s.store with tokens := none } } := by
    simp [BrowserOAuthProvider.invalidateCredentials, h]
  refine ⟨?_, ?_, ?_, ?_⟩
  · rw [hinv]
    unfold BrowserOAuthProvider.clientInformation
    rfl
  · rw [hinv]
    unfold BrowserOAuthProvider.codeVerifier
    rfl
  · rw [hinv]
    exact tokens_fst_of_cleared cfg now _ rfl rfl
  · rw [hinv]

/-- Concrete dynamically-registered client record used by the C8
witness. -/
def sampleClientInfo : ClientInfoFull :=
  { client_id := "test-client", client_secret := some "test-secret",
    client_id_issued_at := some 1000, client_secret_expires_at := none,
    redirect_uris := ["http://localhost:3000/callback"] }

/-- Concrete mid-exchange provider state used by the C8 witness. -/
def sampleExchangingState : ProviderState :=
  { clientInfo := some sampleClientInfo,
    tokens := some sampleTokens, codeVerifier := some "test-verifier",
    pendingAuthCode := none, pendingAuthState := none,
    isExchangingCode := true, tokensLoaded := true,
    store := { tokens := some sampleStored, client := none, session := none } }

/-- Witness for C8 at a concrete input. -/
theorem invalidateCredentials_all_during_exchange_witness :
    BrowserOAuthProvider.clientInformation sampleCfg
        (BrowserOAuthProvider.invalidateCredentials sampleCfg .all sampleExchangingState)
      = BrowserOAuthProvider.clientInformation sampleCfg sampleExchangingState
    ∧ BrowserOAuthProvider.codeVerifier
        (BrowserOAuthProvider.invalidateCredentials sampleCfg .all sampleExchangingState)
      = BrowserOAuthProvider.codeVerifier sampleExchangingState
    ∧ (BrowserOAuthProvider.tokens sampleCfg 1000000
        (BrowserOAuthProvider.invalidateCredentials sampleCfg .all sampleExchangingState)).fst
      = none
    ∧ (BrowserOAuthProvider.invalidateCredentials sampleCfg .all
        sampleExchangingState).store.tokens = none :=
  invalidateCredentials_all_during_exchange sampleCfg 1000000
    sampleExchangingState (by rfl)

/-- **C10.** `saveTokens` with `expires_in = 0` stores `expiresAt` as
absent (`calculateExpiry` treats `0` as absent), and every subsequent
`tokens()` read — at any clock value — skips the expiry/refresh branch
and returns the token as-is. -/
theorem saveTokens_zero_expiry (cfg : ProviderConfig) (s : ProviderState)
    (now now2 : Int) (t : OAuthTokens) (h : t.expires_in = some 0) :
    calculateExpiry now t.expires_in = none
    ∧ (BrowserOAuthProvider.saveTokens now t s).store.tokens
        = some { accessToken := t.access_token, refreshToken := t.refresh_token,
                 expiresAt := none, scope := t.scope }
    ∧ (BrowserOAuthProvider.tokens cfg now2
        (BrowserOAuthProvider.saveTokens now t s)).fst = some t := by
  refine ⟨by simp [calculateExpiry, h], ?_, ?_⟩
  · simp [BrowserOAuthProvider.saveTokens, h, jsTruthyInt]
  · simp [BrowserOAuthProvider.tokens, BrowserOAuthProvider.ensureTokensLoaded,
      BrowserOAuthProvider.saveTokens, h, jsTruthyInt]

/-- Concrete non-expiring token used by the C10 witness. -/
def sampleZeroExpiryTokens : OAuthTokens :=
  { access_token := "test-access-token", token_type := "Bearer",
    refresh_token := none, expires_in := some 0, scope := none }

/-- Witness for C10 at a concrete input. -/
theorem saveTokens_zero_expiry_witness :
    calculateExpiry 1000000 sampleZeroExpiryTokens.expires_in = none
    ∧ (BrowserOAuthProvider.saveTokens 1000000 sampleZeroExpiryTokens
        samplePendingState).store.tokens
        = some { accessToken := "test-access-token", refreshToken := none,
                 expiresAt := none, scope := none }
    ∧ (BrowserOAuthProvider.tokens sampleCfg 99999999
        (BrowserOAuthProvider.saveTokens 1000000 sampleZeroExpiryTokens
          samplePendingState)).fst = some sampleZeroExpiryTokens :=
  saveTokens_zero_expiry sampleCfg samplePendingState 1000000 99999999
    sampleZeroExpiryTokens rfl

end OAuthCallback
